import Mathlib

/-!
Shallow embedding of the email-recruiter agent repository.

Embedded source:
* `mockFastAPI.py` — the mock status service: the seeded table
  `mock_user_statuses` and the endpoint handler `get_user_app_status`.
* `agent_workflow.py` — the two tool functions `get_user_status`
  (HTTP status lookup via `requests`) and `send_user_email`
  (SMTP send via `smtplib`).

External effects (the HTTP transport seen by `requests.get`, and the
behaviour of the `smtplib` session against the real server) are passed in
as explicit inputs; the observable actions a call performs (HTTP requests
issued, SMTP session events) are returned as explicit traces.  Exception
propagation out of a tool is modelled with `Except`.  Exception message
texts that are produced inside third-party libraries (`requests`,
`smtplib`, the JSON decoder) are abstracted as strings carried by the
input, or by simple stand-in constants, since only their presence inside
the returned diagnostic matters to the spec.
-/

/-! Part 1: the mock status service (`mockFastAPI.py`). -/

/-- The JSON object returned by the endpoint on success, mirroring the
dict literal at the end of `get_user_app_status`. -/
structure StatusResponse where
  user_id : Int
  app_status : String
  message : String
deriving DecidableEq

/-- FastAPI's `HTTPException`, as raised by the handler: carries a
status code and a human-readable detail message. -/
structure HTTPError where
  status_code : Nat
  detail : String
deriving DecidableEq

/-- The seeded mock table (`mock_user_statuses` in `mockFastAPI.py`),
a finite mapping from user id to status string. -/
def mock_user_statuses : List (Int × String) :=
  [(101, "Active"), (102, "Inactive"), (103, "Pending_Approval"), (104, "Suspended")]

/-- The endpoint handler `get_user_app_status`, in state-passing form:
it reads the table (`user_id not in mock_user_statuses`, then
`mock_user_statuses[user_id]`), performs no writes, and hands the table
back unchanged together with either the success dict or the raised
`HTTPException(404, ...)`. -/
def get_user_app_status_st (table : List (Int × String)) (user_id : Int) :
    Except HTTPError StatusResponse × List (Int × String) :=
  match table.lookup user_id with
  | none =>
      (Except.error
        { status_code := 404
          detail := "User with ID " ++ toString user_id ++ " not found." }, table)
  | some status =>
      (Except.ok
        { user_id := user_id
          app_status := status
          message := "Status retrieved successfully for user " ++ toString user_id ++ "." }, table)

/-- The endpoint handler applied to the module-level table, returning
just the HTTP outcome. -/
def get_user_app_status (user_id : Int) : Except HTTPError StatusResponse :=
  (get_user_app_status_st mock_user_statuses user_id).1

/-- The HTTP status code of a handler outcome: FastAPI sends 200 for a
plain return and the carried code for a raised `HTTPException`. -/
def http_status : Except HTTPError StatusResponse → Nat
  | Except.ok _ => 200
  | Except.error e => e.status_code

/-! Part 2: the status lookup tool (`get_user_status` in `agent_workflow.py`). -/

/-- Module-level constant `API_BASE_URL`. -/
def API_BASE_URL : String := "http://127.0.0.1:8001"

/-- Module-level constant `SENDER_EMAIL`. -/
def SENDER_EMAIL : String := "your-support@example.com"

/-- The JSON body of an HTTP response, as far as the tool inspects it:
it may fail to parse (`response.json()` raises), parse to a non-object
value (on which `data.get` raises `AttributeError`), or parse to an
object, of which the tool only ever reads string-valued fields. -/
inductive JsonBody
  | invalid
  | nonObject
  | obj (fields : List (String × String))
deriving DecidableEq

/-- What the single `requests.get` call yields: either a raised
`requests.exceptions.RequestException` (connection error, timeout, ...)
carrying its message, or a response with a status code and a body. -/
inductive HTTPOutcome
  | raised (msg : String)
  | response (status_code : Nat) (body : JsonBody)
deriving DecidableEq

/-- A Python exception that escapes a tool uncaught. -/
inductive PyExc
  | attributeError (msg : String)
deriving DecidableEq

/-- An observable network action of the status tool. -/
inductive NetEvent
  | httpGet (url : String)
deriving DecidableEq

/-- Message of the `requests.HTTPError` that `raise_for_status` raises
for a status code in [400, 600): client error below 500, server error
from 500 (the response reason phrase is abstracted away). -/
def http_error_detail (status_code : Nat) (url : String) : String :=
  (if status_code < 500 then toString status_code ++ " Client Error: for url: "
   else toString status_code ++ " Server Error: for url: ") ++ url

/-- Stand-in for the message of the JSON decode error raised by
`response.json()` on an unparsable body (a `requests` exception type,
hence caught by the tool's `except` clause). -/
def json_decode_detail : String := "Expecting value: line 1 column 1 (char 0)"

/-- The `except` clause of `get_user_status`: the f-string
`ERROR: Failed to connect to API or retrieve status. Details: {e}`. -/
def statusErrString (msg : String) : String :=
  "ERROR: Failed to connect to API or retrieve status. Details: " ++ msg

/-- The tool `get_user_status` from `agent_workflow.py`.  It builds the
endpoint URL, issues exactly one GET (the trace component), and then:
a raised request exception is caught and turned into the `ERROR:`
string; `raise_for_status` raises (and the handler catches) for codes
in [400, 600); an unparsable body raises a JSON decode error, also a
`RequestException`, also caught; a parsed non-object body makes
`data.get` raise `AttributeError`, which the `except` clause does not
cover, so it propagates (`Except.error`); a parsed object yields the
formatted status string with default `Status Unknown`. -/
def get_user_status (user_id : Int) (net : HTTPOutcome) :
    Except PyExc String × List NetEvent :=
  let endpoint := API_BASE_URL ++ "/users/" ++ toString user_id ++ "/status"
  let result : Except PyExc String :=
    match net with
    | HTTPOutcome.raised msg =>
        Except.ok (statusErrString msg)
    | HTTPOutcome.response status_code body =>
        if 400 ≤ status_code ∧ status_code < 600 then
          Except.ok (statusErrString (http_error_detail status_code endpoint))
        else
          match body with
          | JsonBody.invalid =>
              Except.ok (statusErrString json_decode_detail)
          | JsonBody.nonObject =>
              Except.error (PyExc.attributeError "object has no attribute get")
          | JsonBody.obj fields =>
              Except.ok ("User " ++ toString user_id ++ " Status: "
                ++ ((fields.lookup "app_status").getD "Status Unknown"))
  (result, [NetEvent.httpGet endpoint])

/-! Part 3: the email tool (`send_user_email` in `agent_workflow.py`). -/

/-- The three environment values the tool reads with `os.getenv`
(`none` when the variable is unset). -/
structure Env where
  MAILTRAP_HOST : Option String
  MAILTRAP_LOGIN : Option String
  MAILTRAP_PASSWORD : Option String
deriving DecidableEq

/-- Python truthiness test `not x` for an `os.getenv` result: true when
the variable is unset or set to the empty string. -/
def falsy : Option String → Bool
  | none => true
  | some s => s.isEmpty

/-- An exception raised by an `smtplib` call: either an
`smtplib.SMTPException` (or subclass) or any other exception, each
carrying its message. -/
inductive SMTPExc
  | smtpException (msg : String)
  | otherException (msg : String)
deriving DecidableEq

/-- Abstract behaviour of the SMTP server/transport for one call: for
each step of the session, the exception it raises, if any (a step's
outcome is only consulted when the call actually reaches that step).
`connectResult` is for the `smtplib.SMTP(host, port)` constructor,
which connects and therefore can raise before the session exists. -/
structure SMTPTransport where
  connectResult : Option SMTPExc
  starttlsResult : Option SMTPExc
  loginResult : Option SMTPExc
  sendmailResult : Option SMTPExc
deriving DecidableEq

/-- Observable SMTP session events, in the vocabulary of the spec:
session established, STARTTLS negotiated, authenticated, message
handed over, session closed. -/
inductive SMTPEvent
  | sessionOpened
  | tlsStarted
  | loggedIn
  | messageSent
  | sessionClosed
deriving DecidableEq

/-- The MIME message the tool builds (`MIMEMultipart` with `Subject`,
`From`, `To` headers and one plain-text part). -/
structure EmailMessage where
  subject : String
  sender : String
  recipient : String
  body : String
deriving DecidableEq

/-- Everything one call to `send_user_email` does: the returned string,
the SMTP session events in order, the message it built (if it got that
far), and the `(host, port)` pair handed to the `smtplib.SMTP`
constructor (if the call attempted a session at all). -/
structure SendOutcome where
  result : String
  events : List SMTPEvent
  messageBuilt : Option EmailMessage
  connectAttempt : Option (Option String × Nat)
deriving DecidableEq

/-- The literal returned by the credential guard. -/
def credErrString : String :=
  "ERROR: Mailtrap credentials (MAILTRAP_HOST/LOGIN/PASSWORD) are not set in environment variables."

/-- The f-string returned on success:
`SUCCESS: Real email sent to {recipient_email} with subject '{subject}'
via Mailtrap. Check your Mailtrap Sandbox inbox.` -/
def successString (recipient_email subject : String) : String :=
  "SUCCESS: Real email sent to " ++ recipient_email ++ " with subject '" ++ subject
    ++ "' via Mailtrap. Check your Mailtrap Sandbox inbox."

/-- The two `except` clauses of `send_user_email`: an
`smtplib.SMTPException` yields the SMTP-specific `ERROR:` string, any
other exception the generic one; `msg` stands for `str(e)`. -/
def smtpErrString : SMTPExc → String
  | SMTPExc.smtpException msg =>
      "ERROR: SMTP failed to send email. Check Mailtrap credentials, SENDER_EMAIL, and network. Details: "
        ++ msg
  | SMTPExc.otherException msg =>
      "ERROR: General error during email sending. Details: " ++ msg

/-- The tool `send_user_email` from `agent_workflow.py`.  It reads the
environment, returns the credential error at once when login or
password is falsy (host is not checked), otherwise builds the message
and runs `with smtplib.SMTP(host, 587) as server:` followed by
`starttls`, `login`, `sendmail`.  The `with` block closes the session
on every exit from its body, normal or raising, but a constructor
failure means no session ever existed, so nothing is closed.  Both
`except` clauses turn the first raised exception into its `ERROR:`
string; the success string is returned after the block has closed the
session. -/
def send_user_email (env : Env) (tr : SMTPTransport)
    (recipient_email subject body : String) : SendOutcome :=
  let login := env.MAILTRAP_LOGIN
  let password := env.MAILTRAP_PASSWORD
  if falsy login || falsy password then
    { result := credErrString, events := [], messageBuilt := none, connectAttempt := none }
  else
    let message : EmailMessage :=
      { subject := subject, sender := SENDER_EMAIL, recipient := recipient_email, body := body }
    let attempt : Option (Option String × Nat) := some (env.MAILTRAP_HOST, 587)
    match tr.connectResult with
    | some e =>
        { result := smtpErrString e, events := [], messageBuilt := some message,
          connectAttempt := attempt }
    | none =>
        match tr.starttlsResult with
        | some e =>
            { result := smtpErrString e,
              events := [SMTPEvent.sessionOpened, SMTPEvent.sessionClosed],
              messageBuilt := some message, connectAttempt := attempt }
        | none =>
            match tr.loginResult with
            | some e =>
                { result := smtpErrString e,
                  events := [SMTPEvent.sessionOpened, SMTPEvent.tlsStarted,
                    SMTPEvent.sessionClosed],
                  messageBuilt := some message, connectAttempt := attempt }
            | none =>
                match tr.sendmailResult with
                | some e =>
                    { result := smtpErrString e,
                      events := [SMTPEvent.sessionOpened, SMTPEvent.tlsStarted,
                        SMTPEvent.loggedIn, SMTPEvent.sessionClosed],
                      messageBuilt := some message, connectAttempt := attempt }
                | none =>
                    { result := successString recipient_email subject
                      events := [SMTPEvent.sessionOpened, SMTPEvent.tlsStarted,
                        SMTPEvent.loggedIn, SMTPEvent.messageSent, SMTPEvent.sessionClosed]
                      messageBuilt := some message, connectAttempt := attempt }

/-! Part 4: the `ERROR:` / `SUCCESS:` marker discipline of tool results. -/

/-- The string `s` begins with the marker `m` (character-level test on
the underlying character lists). -/
def beginsWith (m s : String) : Bool :=
  m.data.isPrefixOf s.data

/-! Part 5: concrete fixtures used to instantiate the theorems. -/

/-- An environment with all three Mailtrap variables set. -/
def envOk : Env :=
  { MAILTRAP_HOST := some "sandbox.smtp.mailtrap.io"
    MAILTRAP_LOGIN := some "mtuser", MAILTRAP_PASSWORD := some "mtpass" }

/-- An environment in which `MAILTRAP_LOGIN` is unset. -/
def envNoLogin : Env :=
  { MAILTRAP_HOST := some "sandbox.smtp.mailtrap.io"
    MAILTRAP_LOGIN := none, MAILTRAP_PASSWORD := some "mtpass" }

/-- An environment with credentials set but `MAILTRAP_HOST` unset. -/
def envNoHost : Env :=
  { MAILTRAP_HOST := none
    MAILTRAP_LOGIN := some "mtuser", MAILTRAP_PASSWORD := some "mtpass" }

/-- A transport on which every SMTP step succeeds. -/
def trAllOk : SMTPTransport :=
  { connectResult := none, starttlsResult := none
    loginResult := none, sendmailResult := none }

/-- A transport on which the `smtplib.SMTP` constructor itself raises
(connection refused), so no session ever comes into existence. -/
def trConnRefused : SMTPTransport :=
  { connectResult := some (SMTPExc.otherException "Connection refused")
    starttlsResult := none, loginResult := none, sendmailResult := none }

/-- A transport on which the session is established but `sendmail`
raises an `smtplib.SMTPException`. -/
def trSendFail : SMTPTransport :=
  { connectResult := none, starttlsResult := none
    loginResult := none, sendmailResult := some (SMTPExc.smtpException "sender address rejected") }

/-! Helper lemmas about the marker test. -/

theorem isPrefixOf_append_self (l r : List Char) : l.isPrefixOf (l ++ r) = true := by
  induction l with
  | nil => simp
  | cons a as ih => simp [ih]

theorem isPrefixOf_extend (l s t : List Char) (h : l.isPrefixOf s = true) :
    l.isPrefixOf (s ++ t) = true := by
  induction l generalizing s with
  | nil => simp
  | cons a as ih =>
    cases s with
    | nil => simp at h
    | cons b bs =>
      simp only [List.cons_append, List.isPrefixOf_cons₂] at h ⊢
      rcases Bool.and_eq_true_iff.mp h with ⟨h1, h2⟩
      exact Bool.and_eq_true_iff.mpr ⟨h1, ih bs h2⟩

theorem beginsWith_extend (m s t : String) (h : beginsWith m s = true) :
    beginsWith m (s ++ t) = true := by
  unfold beginsWith at *
  rw [String.data_append]
  exact isPrefixOf_extend _ _ _ h

theorem ne_of_marker (m x y : String) (hx : beginsWith m x = true)
    (hy : beginsWith m y = false) : x ≠ y := by
  intro h
  rw [h, hy] at hx
  exact Bool.false_ne_true hx

theorem statusErr_marker (msg : String) :
    beginsWith "ERROR:" (statusErrString msg) = true :=
  beginsWith_extend _ _ _ (by decide)

theorem smtpErr_marker (e : SMTPExc) :
    beginsWith "ERROR:" (smtpErrString e) = true := by
  cases e with
  | smtpException msg => exact beginsWith_extend _ _ _ (by decide)
  | otherException msg => exact beginsWith_extend _ _ _ (by decide)

theorem success_marker (recipient_email subject : String) :
    beginsWith "SUCCESS:" (successString recipient_email subject) = true := by
  unfold successString
  apply beginsWith_extend
  apply beginsWith_extend
  apply beginsWith_extend
  exact beginsWith_extend _ _ _ (by decide)

/-! Claim theorems. -/

/-- C1: for every `user_id` present in the mock status table, the mock
service operation `get_user_app_status` returns HTTP 200 with body
exactly `{user_id: the requested id, app_status: the stored status
string unchanged, message: a (fixed-format) string}`. -/
theorem mock_found_returns_stored_status (user_id : Int) (status : String)
    (h : mock_user_statuses.lookup user_id = some status) :
    get_user_app_status user_id = Except.ok
      { user_id := user_id, app_status := status
        message := "Status retrieved successfully for user " ++ toString user_id ++ "." } ∧
    http_status (get_user_app_status user_id) = 200 := by
  have heq : get_user_app_status user_id = Except.ok
      { user_id := user_id, app_status := status
        message := "Status retrieved successfully for user " ++ toString user_id ++ "." } := by
    simp [get_user_app_status, get_user_app_status_st, h]
  exact ⟨heq, by rw [heq]; rfl⟩

/-- C1 witness: the table stores `101 ↦ "Active"` and the handler
returns exactly that status with code 200. -/
theorem mock_found_returns_stored_status_witness :
    get_user_app_status 101 = Except.ok
      { user_id := 101, app_status := "Active"
        message := "Status retrieved successfully for user " ++ toString (101 : Int) ++ "." } ∧
    http_status (get_user_app_status 101) = 200 :=
  mock_found_returns_stored_status 101 "Active" (by decide)

/-- C2: for every `user_id` not present in the mock status table,
`get_user_app_status` fails with HTTP 404 and a detail message that
contains that `user_id`. -/
theorem mock_not_found_404 (user_id : Int)
    (h : mock_user_statuses.lookup user_id = none) :
    ∃ e : HTTPError, get_user_app_status user_id = Except.error e ∧
      e.status_code = 404 ∧
      http_status (get_user_app_status user_id) = 404 ∧
      ∃ pre post : String, e.detail = pre ++ toString user_id ++ post := by
  have heq : get_user_app_status user_id = Except.error
      { status_code := 404
        detail := "User with ID " ++ toString user_id ++ " not found." } := by
    simp [get_user_app_status, get_user_app_status_st, h]
  exact ⟨_, heq, rfl, by rw [heq]; rfl, "User with ID ", " not found.", rfl⟩

/-- C2 witness: user 999 is absent, and the handler yields a 404 whose
detail contains "999". -/
theorem mock_not_found_404_witness :
    ∃ e : HTTPError, get_user_app_status 999 = Except.error e ∧
      e.status_code = 404 ∧
      http_status (get_user_app_status 999) = 404 ∧
      ∃ pre post : String, e.detail = pre ++ toString (999 : Int) ++ post :=
  mock_not_found_404 999 (by decide)

/-- C8: with the seeded table, looking up 101 yields a response whose
`app_status` is `"Active"` (with HTTP 200), and looking up 999 yields
an HTTP 404 error. -/
theorem seeded_table_contract :
    get_user_app_status 101 = Except.ok
      { user_id := 101, app_status := "Active"
        message := "Status retrieved successfully for user 101." } ∧
    http_status (get_user_app_status 101) = 200 ∧
    get_user_app_status 999 = Except.error
      { status_code := 404, detail := "User with ID 999 not found." } ∧
    http_status (get_user_app_status 999) = 404 := by
  refine ⟨?_, rfl, ?_, rfl⟩ <;> rfl

/-- C9: the mock lookup performs no writes: it hands the table back
unchanged, repeated invocations with the same identifier return
identical results, and the handler is the pure lookup applied to the
module-level table. -/
theorem lookup_idempotent_no_writes (table : List (Int × String)) (user_id : Int) :
    (get_user_app_status_st table user_id).2 = table ∧
    get_user_app_status_st (get_user_app_status_st table user_id).2 user_id
      = get_user_app_status_st table user_id ∧
    (get_user_app_status_st mock_user_statuses user_id).1 = get_user_app_status user_id := by
  have h2 : (get_user_app_status_st table user_id).2 = table := by
    cases hl : table.lookup user_id <;> simp [get_user_app_status_st, hl]
  exact ⟨h2, by rw [h2], rfl⟩

/-- C3: whenever `MAILTRAP_LOGIN` or `MAILTRAP_PASSWORD` is absent or
empty, `send_user_email` returns the `ERROR:` string immediately: no
SMTP session is attempted or opened, no authentication occurs, and no
message is even constructed. -/
theorem email_missing_credentials (env : Env) (tr : SMTPTransport)
    (recipient_email subject body : String)
    (h : falsy env.MAILTRAP_LOGIN = true ∨ falsy env.MAILTRAP_PASSWORD = true) :
    send_user_email env tr recipient_email subject body =
      { result := credErrString, events := [], messageBuilt := none
        connectAttempt := none } ∧
    beginsWith "ERROR:" (send_user_email env tr recipient_email subject body).result
      = true := by
  have hcond : (falsy env.MAILTRAP_LOGIN || falsy env.MAILTRAP_PASSWORD) = true := by
    rcases h with h | h <;> simp [h]
  have heq : send_user_email env tr recipient_email subject body =
      { result := credErrString, events := [], messageBuilt := none
        connectAttempt := none } := by
    simp [send_user_email, hcond]
  exact ⟨heq, by rw [heq]; decide⟩

/-- C3 witness: with `MAILTRAP_LOGIN` unset (and even a fully working
transport), the call fails immediately with the credential error and
performs nothing. -/
theorem email_missing_credentials_witness :
    send_user_email envNoLogin trAllOk "user@example.com" "Hi" "Hello" =
      { result := credErrString, events := [], messageBuilt := none
        connectAttempt := none } ∧
    beginsWith "ERROR:" (send_user_email envNoLogin trAllOk "user@example.com" "Hi" "Hello").result
      = true :=
  email_missing_credentials envNoLogin trAllOk "user@example.com" "Hi" "Hello"
    (Or.inl (by decide))

/-- C10: the credential guard does not cover `MAILTRAP_HOST`: with
login and password set but the host unset, the call does not return the
configuration-failure string; it builds the message, hands
`(None, 587)` to the SMTP constructor, and its result can only be the
success string or an SMTP/general exception `ERROR:` string. -/
theorem host_not_guarded (env : Env) (tr : SMTPTransport)
    (recipient_email subject body : String)
    (hh : env.MAILTRAP_HOST = none)
    (hl : falsy env.MAILTRAP_LOGIN = false) (hp : falsy env.MAILTRAP_PASSWORD = false) :
    (send_user_email env tr recipient_email subject body).result ≠ credErrString ∧
    (send_user_email env tr recipient_email subject body).messageBuilt =
      some { subject := subject, sender := SENDER_EMAIL
             recipient := recipient_email, body := body } ∧
    (send_user_email env tr recipient_email subject body).connectAttempt
      = some (none, 587) ∧
    (beginsWith "SUCCESS:" (send_user_email env tr recipient_email subject body).result = true ∨
     beginsWith "ERROR: SMTP failed" (send_user_email env tr recipient_email subject body).result = true ∨
     beginsWith "ERROR: General" (send_user_email env tr recipient_email subject body).result = true) := by
  obtain ⟨c, st, lg, sm⟩ := tr
  rcases c with _ | e
  case some =>
    have heq : send_user_email env ⟨some e, st, lg, sm⟩ recipient_email subject body =
        { result := smtpErrString e
          events := [], messageBuilt := some
            { subject := subject, sender := SENDER_EMAIL
              recipient := recipient_email, body := body }
          connectAttempt := some (env.MAILTRAP_HOST, 587) } := by
      simp [send_user_email, hl, hp]
    rw [heq, hh]
    cases e with
    | smtpException msg =>
        exact ⟨ne_of_marker "ERROR: SMTP failed" _ _
            (beginsWith_extend _ _ _ (by decide)) (by decide), rfl, rfl,
          Or.inr (Or.inl (beginsWith_extend _ _ _ (by decide)))⟩
    | otherException msg =>
        exact ⟨ne_of_marker "ERROR: General" _ _
            (beginsWith_extend _ _ _ (by decide)) (by decide), rfl, rfl,
          Or.inr (Or.inr (beginsWith_extend _ _ _ (by decide)))⟩
  all_goals rcases st with _ | e
  case some =>
    have heq : send_user_email env ⟨none, some e, lg, sm⟩ recipient_email subject body =
        { result := smtpErrString e
          events := [SMTPEvent.sessionOpened, SMTPEvent.sessionClosed]
          messageBuilt := some
            { subject := subject, sender := SENDER_EMAIL
              recipient := recipient_email, body := body }
          connectAttempt := some (env.MAILTRAP_HOST, 587) } := by
      simp [send_user_email, hl, hp]
    rw [heq, hh]
    cases e with
    | smtpException msg =>
        exact ⟨ne_of_marker "ERROR: SMTP failed" _ _
            (beginsWith_extend _ _ _ (by decide)) (by decide), rfl, rfl,
          Or.inr (Or.inl (beginsWith_extend _ _ _ (by decide)))⟩
    | otherException msg =>
        exact ⟨ne_of_marker "ERROR: General" _ _
            (beginsWith_extend _ _ _ (by decide)) (by decide), rfl, rfl,
          Or.inr (Or.inr (beginsWith_extend _ _ _ (by decide)))⟩
  all_goals rcases lg with _ | e
  case some =>
    have heq : send_user_email env ⟨none, none, some e, sm⟩ recipient_email subject body =
        { result := smtpErrString e
          events := [SMTPEvent.sessionOpened, SMTPEvent.tlsStarted, SMTPEvent.sessionClosed]
          messageBuilt := some
            { subject := subject, sender := SENDER_EMAIL
              recipient := recipient_email, body := body }
          connectAttempt := some (env.MAILTRAP_HOST, 587) } := by
      simp [send_user_email, hl, hp]
    rw [heq, hh]
    cases e with
    | smtpException msg =>
        exact ⟨ne_of_marker "ERROR: SMTP failed" _ _
            (beginsWith_extend _ _ _ (by decide)) (by decide), rfl, rfl,
          Or.inr (Or.inl (beginsWith_extend _ _ _ (by decide)))⟩
    | otherException msg =>
        exact ⟨ne_of_marker "ERROR: General" _ _
            (beginsWith_extend _ _ _ (by decide)) (by decide), rfl, rfl,
          Or.inr (Or.inr (beginsWith_extend _ _ _ (by decide)))⟩
  all_goals rcases sm with _ | e
  case some =>
    have heq : send_user_email env ⟨none, none, none, some e⟩ recipient_email subject body =
        { result := smtpErrString e
          events := [SMTPEvent.sessionOpened, SMTPEvent.tlsStarted, SMTPEvent.loggedIn,
            SMTPEvent.sessionClosed]
          messageBuilt := some
            { subject := subject, sender := SENDER_EMAIL
              recipient := recipient_email, body := body }
          connectAttempt := some (env.MAILTRAP_HOST, 587) } := by
      simp [send_user_email, hl, hp]
    rw [heq, hh]
    cases e with
    | smtpException msg =>
        exact ⟨ne_of_marker "ERROR: SMTP failed" _ _
            (beginsWith_extend _ _ _ (by decide)) (by decide), rfl, rfl,
          Or.inr (Or.inl (beginsWith_extend _ _ _ (by decide)))⟩
    | otherException msg =>
        exact ⟨ne_of_marker "ERROR: General" _ _
            (beginsWith_extend _ _ _ (by decide)) (by decide), rfl, rfl,
          Or.inr (Or.inr (beginsWith_extend _ _ _ (by decide)))⟩
  case none =>
    have heq : send_user_email env ⟨none, none, none, none⟩ recipient_email subject body =
        { result := successString recipient_email subject
          events := [SMTPEvent.sessionOpened, SMTPEvent.tlsStarted, SMTPEvent.loggedIn,
            SMTPEvent.messageSent, SMTPEvent.sessionClosed]
          messageBuilt := some
            { subject := subject, sender := SENDER_EMAIL
              recipient := recipient_email, body := body }
          connectAttempt := some (env.MAILTRAP_HOST, 587) } := by
      simp [send_user_email, hl, hp]
    rw [heq, hh]
    exact ⟨ne_of_marker "SUCCESS:" _ _ (success_marker _ _) (by decide), rfl, rfl,
      Or.inl (success_marker _ _)⟩

/-- C10 witness: with credentials set, host unset and a transport on
which every step succeeds, the guard is passed and a session is
attempted with host `none`. -/
theorem host_not_guarded_witness :
    (send_user_email envNoHost trAllOk "user@example.com" "Hi" "Hello").result ≠ credErrString ∧
    (send_user_email envNoHost trAllOk "user@example.com" "Hi" "Hello").messageBuilt =
      some { subject := "Hi", sender := SENDER_EMAIL
             recipient := "user@example.com", body := "Hello" } ∧
    (send_user_email envNoHost trAllOk "user@example.com" "Hi" "Hello").connectAttempt
      = some (none, 587) ∧
    (beginsWith "SUCCESS:" (send_user_email envNoHost trAllOk "user@example.com" "Hi" "Hello").result = true ∨
     beginsWith "ERROR: SMTP failed" (send_user_email envNoHost trAllOk "user@example.com" "Hi" "Hello").result = true ∨
     beginsWith "ERROR: General" (send_user_email envNoHost trAllOk "user@example.com" "Hi" "Hello").result = true) :=
  host_not_guarded envNoHost trAllOk "user@example.com" "Hi" "Hello" rfl
    (by decide) (by decide)

/-- Case analysis of the string `send_user_email` returns: the
credential error, one of the two exception strings, or the success
string. -/
theorem send_result_cases (env : Env) (tr : SMTPTransport) (r s b : String) :
    (send_user_email env tr r s b).result = credErrString ∨
    (∃ e, (send_user_email env tr r s b).result = smtpErrString e) ∨
    (send_user_email env tr r s b).result = successString r s := by
  obtain ⟨c, st, lg, sm⟩ := tr
  by_cases hc : (falsy env.MAILTRAP_LOGIN || falsy env.MAILTRAP_PASSWORD) = true
  · left
    simp [send_user_email, hc]
  · have hc' : (falsy env.MAILTRAP_LOGIN || falsy env.MAILTRAP_PASSWORD) = false :=
      Bool.eq_false_iff.mpr hc
    rcases c with _ | e
    · rcases st with _ | e
      · rcases lg with _ | e
        · rcases sm with _ | e
          · right; right
            simp [send_user_email, hc']
          · right; left
            exact ⟨e, by simp [send_user_email, hc']⟩
        · right; left
          exact ⟨e, by simp [send_user_email, hc']⟩
      · right; left
        exact ⟨e, by simp [send_user_email, hc']⟩
    · right; left
      exact ⟨e, by simp [send_user_email, hc']⟩

/-- C4 counterexample: the success string of `get_user_status` begins
with neither `ERROR:` nor `SUCCESS:`, so the claim that every tool
string carries one of those two leading markers is false. -/
theorem tool_marker_counterexample :
    (get_user_status 101 (HTTPOutcome.response 200 (JsonBody.obj [("app_status", "Active")]))).1
      = Except.ok "User 101 Status: Active" ∧
    beginsWith "ERROR:" "User 101 Status: Active" = false ∧
    beginsWith "SUCCESS:" "User 101 Status: Active" = false :=
  ⟨rfl, by decide, by decide⟩

/-- C4 amended: every string `send_user_email` returns begins with
`ERROR:` or `SUCCESS:`; every string `get_user_status` returns begins
with `ERROR:` or with `User ` (its success shape), so callers can
distinguish outcomes by the `ERROR:` marker alone. -/
theorem tool_result_markers :
    (∀ (env : Env) (tr : SMTPTransport) (r s b : String),
      beginsWith "ERROR:" (send_user_email env tr r s b).result = true ∨
      beginsWith "SUCCESS:" (send_user_email env tr r s b).result = true) ∧
    (∀ (user_id : Int) (net : HTTPOutcome) (d : String),
      (get_user_status user_id net).1 = Except.ok d →
      beginsWith "ERROR:" d = true ∨ beginsWith "User " d = true) := by
  constructor
  · intro env tr r s b
    rcases send_result_cases env tr r s b with h | ⟨e, h⟩ | h
    · left
      rw [h]; decide
    · left
      rw [h]; exact smtpErr_marker e
    · right
      rw [h]; exact success_marker r s
  · intro user_id net d h
    cases net with
    | raised msg =>
        simp [get_user_status] at h
        left
        rw [← h]; exact statusErr_marker msg
    | response status_code bd =>
        by_cases hs : 400 ≤ status_code ∧ status_code < 600
        · simp [get_user_status, hs] at h
          left
          rw [← h]; exact statusErr_marker _
        · cases bd with
          | invalid =>
              simp [get_user_status, hs] at h
              left
              rw [← h]; exact statusErr_marker _
          | nonObject =>
              simp [get_user_status, hs] at h
          | obj fields =>
              simp [get_user_status, hs] at h
              right
              rw [← h]
              apply beginsWith_extend
              apply beginsWith_extend
              exact beginsWith_extend _ _ _ (by decide)

/-- C4 witness: a concrete returned string carries one of the amended
markers. -/
theorem tool_result_markers_witness :
    beginsWith "ERROR:" "User 101 Status: Active" = true ∨
    beginsWith "User " "User 101 Status: Active" = true :=
  tool_result_markers.2 101
    (HTTPOutcome.response 200 (JsonBody.obj [("app_status", "Active")]))
    "User 101 Status: Active" rfl

/-- C5 counterexample: a 301 response (non-2xx, but below 400, so
`raise_for_status` does not raise) with a JSON object body makes
`get_user_status` return the success-format string, not an `ERROR:`
string — the claim that every non-2xx status yields an `ERROR:` result
is false. -/
theorem status_non2xx_counterexample :
    (get_user_status 101 (HTTPOutcome.response 301 (JsonBody.obj [("app_status", "Active")]))).1
      = Except.ok "User 101 Status: Active" ∧
    (301 < 200 ∨ 299 < 301) ∧
    beginsWith "ERROR:" "User 101 Status: Active" = false :=
  ⟨rfl, Or.inr (by decide), by decide⟩

/-- C5 amended: each call issues exactly one GET to the endpoint URL;
a raised transport exception yields the `ERROR:` diagnostic string
embedding the exception text; a status in [400, 600) yields an
`ERROR:` string; an unparsable body with a non-error status yields an
`ERROR:` string; and a JSON-object body with a status outside
[400, 600) — 2xx or not — yields the success string containing the
identifier and the `app_status` field, defaulting to `Status Unknown`
when the field is absent. -/
theorem status_tool_behavior (user_id : Int) (net : HTTPOutcome) :
    (get_user_status user_id net).2 =
      [NetEvent.httpGet (API_BASE_URL ++ "/users/" ++ toString user_id ++ "/status")] ∧
    (∀ msg, net = HTTPOutcome.raised msg →
      (get_user_status user_id net).1 = Except.ok (statusErrString msg) ∧
      beginsWith "ERROR:" (statusErrString msg) = true ∧
      (∃ pre, statusErrString msg = pre ++ msg)) ∧
    (∀ status_code bd, net = HTTPOutcome.response status_code bd →
      400 ≤ status_code → status_code < 600 →
      ∃ d, (get_user_status user_id net).1 = Except.ok d ∧
        beginsWith "ERROR:" d = true) ∧
    (∀ status_code, net = HTTPOutcome.response status_code JsonBody.invalid →
      ¬(400 ≤ status_code ∧ status_code < 600) →
      ∃ d, (get_user_status user_id net).1 = Except.ok d ∧
        beginsWith "ERROR:" d = true) ∧
    (∀ status_code fields, net = HTTPOutcome.response status_code (JsonBody.obj fields) →
      ¬(400 ≤ status_code ∧ status_code < 600) →
      (get_user_status user_id net).1 = Except.ok ("User " ++ toString user_id
        ++ " Status: " ++ ((fields.lookup "app_status").getD "Status Unknown"))) := by
  refine ⟨rfl, ?_, ?_, ?_, ?_⟩
  · rintro msg rfl
    exact ⟨rfl, statusErr_marker msg,
      "ERROR: Failed to connect to API or retrieve status. Details: ", rfl⟩
  · rintro status_code bd rfl h4 h6
    have hs : 400 ≤ status_code ∧ status_code < 600 := ⟨h4, h6⟩
    refine ⟨_, ?_, statusErr_marker (http_error_detail status_code
      (API_BASE_URL ++ "/users/" ++ toString user_id ++ "/status"))⟩
    simp [get_user_status, hs]
  · rintro status_code rfl hs
    refine ⟨_, ?_, statusErr_marker json_decode_detail⟩
    simp [get_user_status, hs]
  · rintro status_code fields rfl hs
    simp [get_user_status, hs]

/-- C5 witness: a 200 response with `app_status = "Active"` for user
101 gives one GET to the endpoint and the formatted success string. -/
theorem status_tool_behavior_witness :
    (get_user_status 101 (HTTPOutcome.response 200 (JsonBody.obj [("app_status", "Active")]))).2
      = [NetEvent.httpGet "http://127.0.0.1:8001/users/101/status"] ∧
    (get_user_status 101 (HTTPOutcome.response 200 (JsonBody.obj [("app_status", "Active")]))).1
      = Except.ok "User 101 Status: Active" :=
  ⟨(status_tool_behavior 101 _).1,
   (status_tool_behavior 101 _).2.2.2.2 200 [("app_status", "Active")] rfl (by decide)⟩

/-- C6 counterexample: a 200 response whose body is valid JSON but not
an object makes `data.get` raise `AttributeError`, which the tool's
`except requests.exceptions.RequestException` clause does not catch:
`get_user_status` propagates an exception instead of returning a
string, so the claim that neither tool ever propagates is false. -/
theorem status_nonobject_raises :
    (get_user_status 101 (HTTPOutcome.response 200 JsonBody.nonObject)).1
      = Except.error (PyExc.attributeError "object has no attribute get") := rfl

/-- C6 amended: `send_user_email` converts the first exception of the
SMTP session into its descriptive `ERROR:` string (the SMTP-specific
one for an `smtplib.SMTPException`, the generic one otherwise) and
never propagates; `get_user_status` propagates an exception exactly
when a response whose status is outside [400, 600) carries a
non-object JSON body — every other failure is caught and converted to
a string. -/
theorem tool_error_conversion :
    (∀ (env : Env) (tr : SMTPTransport) (r s b : String) (e : SMTPExc),
      falsy env.MAILTRAP_LOGIN = false → falsy env.MAILTRAP_PASSWORD = false →
      (tr.connectResult = some e ∨
       (tr.connectResult = none ∧ tr.starttlsResult = some e) ∨
       (tr.connectResult = none ∧ tr.starttlsResult = none ∧ tr.loginResult = some e) ∨
       (tr.connectResult = none ∧ tr.starttlsResult = none ∧ tr.loginResult = none ∧
         tr.sendmailResult = some e)) →
      (send_user_email env tr r s b).result = smtpErrString e) ∧
    (∀ m, smtpErrString (SMTPExc.smtpException m) =
      "ERROR: SMTP failed to send email. Check Mailtrap credentials, SENDER_EMAIL, and network. Details: "
        ++ m) ∧
    (∀ m, smtpErrString (SMTPExc.otherException m) =
      "ERROR: General error during email sending. Details: " ++ m) ∧
    (∀ (user_id : Int) (net : HTTPOutcome),
      (∃ exc, (get_user_status user_id net).1 = Except.error exc) ↔
      (∃ status_code, net = HTTPOutcome.response status_code JsonBody.nonObject ∧
        ¬(400 ≤ status_code ∧ status_code < 600))) := by
  refine ⟨?_, fun m => rfl, fun m => rfl, ?_⟩
  · intro env tr r s b e hl hp hcase
    have hc' : (falsy env.MAILTRAP_LOGIN || falsy env.MAILTRAP_PASSWORD) = false := by
      simp [hl, hp]
    rcases hcase with h1 | ⟨h1, h2⟩ | ⟨h1, h2, h3⟩ | ⟨h1, h2, h3, h4⟩
    · simp [send_user_email, hc', h1]
    · simp [send_user_email, hc', h1, h2]
    · simp [send_user_email, hc', h1, h2, h3]
    · simp [send_user_email, hc', h1, h2, h3, h4]
  · intro user_id net
    constructor
    · rintro ⟨exc, h⟩
      cases net with
      | raised msg => simp [get_user_status] at h
      | response status_code bd =>
          by_cases hs : 400 ≤ status_code ∧ status_code < 600
          · simp [get_user_status, hs] at h
          · cases bd with
            | invalid => simp [get_user_status, hs] at h
            | nonObject => exact ⟨status_code, rfl, hs⟩
            | obj fields => simp [get_user_status, hs] at h
    · rintro ⟨status_code, rfl, hs⟩
      exact ⟨PyExc.attributeError "object has no attribute get",
        by simp [get_user_status, hs]⟩

/-- C6 witness: a simulated `sendmail` SMTP failure is converted to the
SMTP-specific `ERROR:` string. -/
theorem tool_error_conversion_witness :
    (send_user_email envOk trSendFail "user@example.com" "Hi" "Hello").result
      = smtpErrString (SMTPExc.smtpException "sender address rejected") :=
  tool_error_conversion.1 envOk trSendFail "user@example.com" "Hi" "Hello" _
    (by decide) (by decide)
    (Or.inr (Or.inr (Or.inr ⟨rfl, rfl, rfl, rfl⟩)))

/-- C7 counterexample: when the `smtplib.SMTP` constructor itself
raises (e.g. connection refused) on a call that passes the credential
check, no session is ever opened — refuting the claim that every such
call opens exactly one session. -/
theorem smtp_no_session_counterexample :
    falsy envOk.MAILTRAP_LOGIN = false ∧
    falsy envOk.MAILTRAP_PASSWORD = false ∧
    (send_user_email envOk trConnRefused "user@example.com" "Hi" "Hello").events = [] ∧
    (send_user_email envOk trConnRefused "user@example.com" "Hi" "Hello").events.count
      SMTPEvent.sessionOpened = 0 :=
  ⟨by decide, by decide, rfl, rfl⟩

/-- C7 amended: on every call that passes the credential check and on
which the SMTP constructor succeeds, exactly one session is opened and
starttls, login and sendmail are attempted in that order, each only
when the previous step succeeded; the session is closed — as the last
event — on every exit path on which it was opened, including when
starttls, login or sendmail raises, so no path leaves a session open
(a constructor failure opens no session at all). -/
theorem smtp_session_discipline (env : Env) (tr : SMTPTransport)
    (recipient_email subject body : String)
    (hl : falsy env.MAILTRAP_LOGIN = false) (hp : falsy env.MAILTRAP_PASSWORD = false) :
    (∀ e, tr.connectResult = some e →
      (send_user_email env tr recipient_email subject body).events = []) ∧
    (∀ e, tr.connectResult = none → tr.starttlsResult = some e →
      (send_user_email env tr recipient_email subject body).events
        = [SMTPEvent.sessionOpened, SMTPEvent.sessionClosed]) ∧
    (∀ e, tr.connectResult = none → tr.starttlsResult = none → tr.loginResult = some e →
      (send_user_email env tr recipient_email subject body).events
        = [SMTPEvent.sessionOpened, SMTPEvent.tlsStarted, SMTPEvent.sessionClosed]) ∧
    (∀ e, tr.connectResult = none → tr.starttlsResult = none → tr.loginResult = none →
      tr.sendmailResult = some e →
      (send_user_email env tr recipient_email subject body).events
        = [SMTPEvent.sessionOpened, SMTPEvent.tlsStarted, SMTPEvent.loggedIn,
           SMTPEvent.sessionClosed]) ∧
    (tr.connectResult = none → tr.starttlsResult = none → tr.loginResult = none →
      tr.sendmailResult = none →
      (send_user_email env tr recipient_email subject body).events
        = [SMTPEvent.sessionOpened, SMTPEvent.tlsStarted, SMTPEvent.loggedIn,
           SMTPEvent.messageSent, SMTPEvent.sessionClosed]) ∧
    (SMTPEvent.sessionOpened ∈ (send_user_email env tr recipient_email subject body).events →
      (send_user_email env tr recipient_email subject body).events.count
        SMTPEvent.sessionOpened = 1 ∧
      (send_user_email env tr recipient_email subject body).events.getLast?
        = some SMTPEvent.sessionClosed) := by
  have hc' : (falsy env.MAILTRAP_LOGIN || falsy env.MAILTRAP_PASSWORD) = false := by
    simp [hl, hp]
  refine ⟨?_, ?_, ?_, ?_, ?_, ?_⟩
  · intro e h1
    simp [send_user_email, hc', h1]
  · intro e h1 h2
    simp [send_user_email, hc', h1, h2]
  · intro e h1 h2 h3
    simp [send_user_email, hc', h1, h2, h3]
  · intro e h1 h2 h3 h4
    simp [send_user_email, hc', h1, h2, h3, h4]
  · intro h1 h2 h3 h4
    simp [send_user_email, hc', h1, h2, h3, h4]
  · obtain ⟨c, st, lg, sm⟩ := tr
    rcases c with _ | e
    · rcases st with _ | e
      · rcases lg with _ | e
        · rcases sm with _ | e
          · intro _
            have he : (send_user_email env ⟨none, none, none, none⟩
                recipient_email subject body).events
                = [SMTPEvent.sessionOpened, SMTPEvent.tlsStarted, SMTPEvent.loggedIn,
                   SMTPEvent.messageSent, SMTPEvent.sessionClosed] := by
              simp [send_user_email, hc']
            rw [he]
            exact ⟨by decide, rfl⟩
          · intro _
            have he : (send_user_email env ⟨none, none, none, some e⟩
                recipient_email subject body).events
                = [SMTPEvent.sessionOpened, SMTPEvent.tlsStarted, SMTPEvent.loggedIn,
                   SMTPEvent.sessionClosed] := by
              simp [send_user_email, hc']
            rw [he]
            exact ⟨by decide, rfl⟩
        · intro _
          have he : (send_user_email env ⟨none, none, some e, sm⟩
              recipient_email subject body).events
              = [SMTPEvent.sessionOpened, SMTPEvent.tlsStarted, SMTPEvent.sessionClosed] := by
            simp [send_user_email, hc']
          rw [he]
          exact ⟨by decide, rfl⟩
      · intro _
        have he : (send_user_email env ⟨none, some e, lg, sm⟩
            recipient_email subject body).events
            = [SMTPEvent.sessionOpened, SMTPEvent.sessionClosed] := by
          simp [send_user_email, hc']
        rw [he]
        exact ⟨by decide, rfl⟩
    · intro hmem
      have he : (send_user_email env ⟨some e, st, lg, sm⟩
          recipient_email subject body).events = [] := by
        simp [send_user_email, hc']
      rw [he] at hmem
      simp at hmem

/-- C7 witness: with credentials set and a fully successful transport,
the call produces the full ordered trace open, starttls, login, send,
close. -/
theorem smtp_session_discipline_witness :
    (send_user_email envOk trAllOk "user@example.com" "Hi" "Hello").events
      = [SMTPEvent.sessionOpened, SMTPEvent.tlsStarted, SMTPEvent.loggedIn,
         SMTPEvent.messageSent, SMTPEvent.sessionClosed] :=
  (smtp_session_discipline envOk trAllOk "user@example.com" "Hi" "Hello"
    (by decide) (by decide)).2.2.2.2.1 rfl rfl rfl rfl
